import Mathlib

/-!
Verification development for the qreph one-shot note-sharing server
(`src/main.go`). The program reads a payload (from stdin or argv), guards it
behind a `noteStore` whose `get` method releases the payload at most once
(a `sync.Once` inside a mutex), serves it on a single secret HTTP route whose
path is 32 bytes of cryptographic randomness in URL-safe base64, and shuts
down after the first of {delivery completed, interrupt signal}.

Shallow embedding conventions:
- byte slices are `List Nat` (a Go `nil` slice is `none` of `Option (List Nat)`
  where the nil/non-nil distinction matters, as in `noteStore.content`);
- the mutex in `noteStore.get` serializes all concurrent callers, so any
  concurrent execution is equivalent to some sequential order of atomic `get`
  steps; `get` is therefore one state transition and N racing calls are a fold
  of N such transitions;
- `main` is straight-line code with fatal exits; it is embedded as a function
  from an environment (stdin mode, argv, entropy, dial outcome, which signal
  fires first, shutdown result) to the list of observable steps it performs,
  from which the exit code is read off.
-/

/-- Bytes of a Go string conversion, modelled as the code points
(exact for the ASCII strings appearing in the program). -/
def strBytes (s : String) : List Nat := s.toList.map Char.toNat

/-- The note store of `src/main.go` lines 23-27: a nullable byte slice
`content` plus a one-time guard. The `sync.Once` is the Boolean `onceDone`
(`true` once `once.Do` has fired); the mutex is represented by `get` being a
single atomic state transition. -/
structure noteStore where
  content : Option (List Nat)
  onceDone : Bool
deriving Repr, DecidableEq

/-- Lines 29-38 of `src/main.go`: under the mutex, `var content []byte` starts
nil; `once.Do` copies and clears `s.content` only on its first ever call. -/
def noteStore.get (s : noteStore) : Option (List Nat) × noteStore :=
  if s.onceDone then (none, s)
  else (s.content, ⟨none, true⟩)

/-- A sequence of `n` serialized calls to `get` on the same store, returning
the list of results in order together with the final store state. Any
concurrent schedule of callers is equivalent to one of these sequences because
every call holds the mutex for its whole body. -/
def takeAll : Nat → noteStore → List (Option (List Nat)) × noteStore
  | 0, s => ([], s)
  | n + 1, s =>
    let r := noteStore.get s
    let rest := takeAll n r.2
    (r.1 :: rest.1, rest.2)

/-- An HTTP response as the handler produces it: status code, the
Content-Type header if set, and the body bytes. -/
structure Response where
  status : Nat
  contentType : Option String
  body : List Nat
deriving Repr, DecidableEq

/-- The 200 response of lines 98-99: Content-Type set explicitly, body written
from the note, implicit status 200. -/
def okResponse (note : List Nat) : Response :=
  ⟨200, some "text/plain; charset=utf-8", note⟩

/-- The response written by `http.NotFound` (line 95): status 404 with the
standard plain-text not-found body. -/
def notFoundResponse : Response :=
  ⟨404, some "text/plain; charset=utf-8", strBytes "404 page not found\n"⟩

/-- The route handler of lines 92-101 as one request step: state is the store,
the `done` channel (`true` = closed) and an instrumentation counter recording
how many times `close(done)` has been executed. A nil note yields 404 and
leaves `done` untouched; otherwise the handler writes the 200 response and
closes `done`. -/
def handleRequest : noteStore × Bool × Nat → Response × noteStore × Bool × Nat
  | (s, done, closes) =>
    match noteStore.get s with
    | (none, s1) => (notFoundResponse, s1, done, closes)
    | (some note, s1) => (okResponse note, s1, true, closes + 1)

/-- `n` sequential requests to the secret path (the handler body is serialized
by the store's mutex at its only shared-state touch point). -/
def serveRequests : Nat → noteStore × Bool × Nat → List Response × noteStore × Bool × Nat
  | 0, st => ([], st)
  | n + 1, st =>
    let r := handleRequest st
    let rest := serveRequests n r.2
    (r.1 :: rest.1, rest.2)

/-- Delivery of an OS signal to the buffered `stop` channel (line 129,
capacity 1): observation state is "a signal is pending"; delivering to an
already-signalled channel is dropped by the runtime, leaving the state
unchanged. -/
def raiseInterrupt (_pending : Bool) : Bool :=
  true

/-- The URL-safe base64 alphabet used by Go's `base64.URLEncoding`. -/
def base64URLChars : String :=
  "ABCDEFGHIJKLMNOPQRSTUVWXYZabcdefghijklmnopqrstuvwxyz0123456789-_"

/-- Character for a 6-bit group; the `% 64` mirrors the `& 0x3F` masks in Go's
encoder. -/
def b64Char (n : Nat) : Char :=
  base64URLChars.toList.getD (n % 64) 'A'

/-- Go's `base64.URLEncoding.EncodeToString`: 3-byte groups become 4 alphabet
characters; a trailing 1-byte group becomes 2 characters plus `==`, a trailing
2-byte group 3 characters plus `=`. Shifts are written as division by powers
of two (`val >> 18` is `val / 262144`, and so on). -/
def encodeToString : List Nat → List Char
  | [] => []
  | [b0] =>
    let val := b0 * 65536
    [b64Char (val / 262144), b64Char (val / 4096), '=', '=']
  | [b0, b1] =>
    let val := b0 * 65536 + b1 * 256
    [b64Char (val / 262144), b64Char (val / 4096), b64Char (val / 64), '=']
  | b0 :: b1 :: b2 :: rest =>
    let val := b0 * 65536 + b1 * 256 + b2
    b64Char (val / 262144) :: b64Char (val / 4096) :: b64Char (val / 64) ::
      b64Char (val % 64) :: encodeToString rest

/-- Size of the buffer handed to `crypto/rand.Read` on line 83. -/
def randomByteCount : Nat := 32

/-- The event that resolves the `select` on lines 132-135 first. -/
inductive Event
  | completion
  | interrupt
deriving Repr, DecidableEq

/-- Outcome of the type assertion on `conn.LocalAddr()` (line 47): either a
`*net.UDPAddr` carrying an address, or some other address type. -/
inductive LocalAddr
  | udpAddr (ip : String)
  | otherAddr
deriving Repr, DecidableEq

/-- Lines 40-53 of `src/main.go`: dial errors propagate; a local address that
is not a `*net.UDPAddr` becomes the type-assertion error; otherwise the IP is
returned. -/
def getOutboundIP (dial : Except String LocalAddr) : Except String String :=
  match dial with
  | Except.error e => Except.error e
  | Except.ok (LocalAddr.udpAddr ip) => Except.ok ip
  | Except.ok LocalAddr.otherAddr =>
      Except.error "could not assert type to *net.UDPAddr"

/-- One observable step of `main`. `fatalExit` is a `log.Fatal*` call, which
prints the message and exits with status 1; `exitZero` and `exitNormal` are
the two `return` paths of `main` (exit status 0). -/
inductive MainStep
  | statStdin
  | readStdin
  | printUsage
  | fatalExit (msg : String)
  | exitZero
  | constructStore (content : List Nat)
  | randReadStep
  | encodePathStep (path : String)
  | makeDoneChannel
  | registerHandlerStep
  | listenStep
  | startServe
  | discoverAddr
  | composeURL (url : String)
  | printURL
  | renderQR
  | registerSignals
  | waitSelect (e : Event)
  | shutdownCall (timeoutSecs : Nat)
  | logShutdownErr
  | exitNormal
deriving Repr, DecidableEq

/-- The environment `main` runs against: every external input it consumes, in
program order. -/
structure Env where
  statErr : Option String
  stdinIsCharDevice : Bool
  stdinRead : Except String (List Nat)
  argv : List String
  randErr : Option String
  randBytes : List Nat
  listenErr : Option String
  port : Nat
  dial : Except String LocalAddr
  firstEvent : Event
  shutdownErr : Option String
deriving Repr

/-- Lines 129-143: register the signal channel, block on the `select` until
the first of {done closed, signal delivered}, call `server.Shutdown` with the
5-second context, log a shutdown error if any, and return from `main`. -/
def coordinatorTrace (e : Event) (shutdownErr : Option String) : List MainStep :=
  [MainStep.registerSignals, MainStep.waitSelect e, MainStep.shutdownCall 5]
    ++ (match shutdownErr with
        | some _ => [MainStep.logShutdownErr]
        | none => [])
    ++ [MainStep.exitNormal]

/-- Lines 81-143 of `main`, entered once non-empty content is in hand:
construct the store, draw randomness (fatal on failure), build the path,
make the `done` channel, register the handler, bind the listener (fatal on
failure), start serving in a goroutine, discover the outbound address (fatal
on failure), compose and display the URL, then run the coordinator. -/
def serveTrace (env : Env) (content : List Nat) : List MainStep :=
  MainStep.constructStore content ::
  match env.randErr with
  | some e => [MainStep.fatalExit ("failed to generate random bytes: " ++ e)]
  | none =>
    MainStep.randReadStep ::
    MainStep.encodePathStep ("/" ++ String.mk (encodeToString env.randBytes)) ::
    MainStep.makeDoneChannel ::
    MainStep.registerHandlerStep ::
    match env.listenErr with
    | some e => [MainStep.fatalExit ("failed to create listener: " ++ e)]
    | none =>
      MainStep.listenStep ::
      MainStep.startServe ::
      MainStep.discoverAddr ::
      match getOutboundIP env.dial with
      | Except.error e => [MainStep.fatalExit ("failed to get outbound ip: " ++ e)]
      | Except.ok ip =>
        MainStep.composeURL
            ("http://" ++ ip ++ ":" ++ toString env.port ++ "/"
              ++ String.mk (encodeToString env.randBytes)) ::
        MainStep.printURL ::
        MainStep.renderQR ::
        coordinatorTrace env.firstEvent env.shutdownErr

/-- Lines 77-79: the emptiness check guarding store construction. -/
def contentCheck (env : Env) (content : List Nat) : List MainStep :=
  if content.length = 0 then [MainStep.fatalExit "no content provided"]
  else serveTrace env content

/-- Lines 55-143 of `src/main.go` as the list of observable steps performed,
driven by the environment. Stdin that is not a character device is read whole;
a terminal with no extra argv entries prints usage and returns; otherwise the
arguments after the program name are joined with spaces. -/
def mainTrace (env : Env) : List MainStep :=
  MainStep.statStdin ::
  match env.statErr with
  | some e => [MainStep.fatalExit ("failed to stat stdin: " ++ e)]
  | none =>
    if env.stdinIsCharDevice then
      if env.argv.length < 2 then [MainStep.printUsage, MainStep.exitZero]
      else contentCheck env (strBytes (String.intercalate " " (env.argv.drop 1)))
    else
      match env.stdinRead with
      | Except.error e => [MainStep.fatalExit ("failed to read from stdin: " ++ e)]
      | Except.ok data => MainStep.readStdin :: contentCheck env data

/-- Exit status carried by a step, if that step terminates the process. -/
def stepExitCode : MainStep → Option Nat
  | MainStep.fatalExit _ => some 1
  | MainStep.exitZero => some 0
  | MainStep.exitNormal => some 0
  | _ => none

/-- Exit status of a completed run: the code of the final step. -/
def traceExitCode : List MainStep → Option Nat
  | [] => none
  | [s] => stepExitCode s
  | _ :: rest => traceExitCode rest

/-- Recognizer for the `server.Shutdown` step, used to count how often the
shutdown is invoked. -/
def isShutdownStep : MainStep → Bool
  | MainStep.shutdownCall _ => true
  | _ => false

/-- Recognizer for the blocking `select` step, used to count how often the
coordinator waits. -/
def isWaitStep : MainStep → Bool
  | MainStep.waitSelect _ => true
  | _ => false

theorem takeAll_released : ∀ (m : Nat) (s : noteStore), s.onceDone = true →
    takeAll m s = (List.replicate m none, s)
  | 0, s, _ => by simp [takeAll]
  | m + 1, s, h => by
    have ih := takeAll_released m s h
    simp [takeAll, noteStore.get, h, ih, List.replicate_succ]

theorem takeAll_fresh (p : Option (List Nat)) (n : Nat) :
    takeAll (n + 1) ⟨p, false⟩ = (p :: List.replicate n none, ⟨none, true⟩) := by
  have h := takeAll_released n ⟨none, true⟩ rfl
  simp [takeAll, noteStore.get, h]

theorem countP_replicate_zero {α : Type} (f : α → Bool) (a : α) (n : Nat)
    (h : f a = false) : (List.replicate n a).countP f = 0 := by
  induction n with
  | zero => simp
  | succ m ih => simp [List.replicate_succ, List.countP_cons, h, ih]

theorem serveRequests_released : ∀ (n : Nat) (s : noteStore) (d : Bool) (c : Nat),
    s.onceDone = true →
    serveRequests n (s, d, c) = (List.replicate n notFoundResponse, s, d, c)
  | 0, s, d, c, _ => by simp [serveRequests]
  | n + 1, s, d, c, h => by
    have ih := serveRequests_released n s d c h
    simp [serveRequests, handleRequest, noteStore.get, h, ih, List.replicate_succ]

theorem serveRequests_fresh (p : List Nat) (n : Nat) (d : Bool) (c : Nat) :
    serveRequests (n + 1) (⟨some p, false⟩, d, c) =
      (okResponse p :: List.replicate n notFoundResponse, ⟨none, true⟩, true, c + 1) := by
  have h := serveRequests_released n ⟨none, true⟩ true (c + 1) rfl
  simp [serveRequests, handleRequest, noteStore.get, h]

theorem b64Char_getD_bounded : ∀ m, m < 64 →
    base64URLChars.toList.getD m 'A' ∈ base64URLChars.toList ∧
      base64URLChars.toList.getD m 'A' ≠ '=' := by decide

theorem b64Char_mem (n : Nat) :
    b64Char n ∈ base64URLChars.toList ∧ b64Char n ≠ '=' := by
  have h : n % 64 < 64 := Nat.mod_lt _ (by omega)
  simpa [b64Char] using b64Char_getD_bounded (n % 64) h

theorem encodeToString_length : ∀ bs : List Nat,
    (encodeToString bs).length = 4 * ((bs.length + 2) / 3)
  | [] => by simp [encodeToString]
  | [b0] => by simp [encodeToString]
  | [b0, b1] => by simp [encodeToString]
  | b0 :: b1 :: b2 :: rest => by
    have ih := encodeToString_length rest
    simp [encodeToString, ih]
    omega

theorem encodeToString_chars : ∀ bs : List Nat, ∀ c ∈ encodeToString bs,
    c ∈ base64URLChars.toList ∨ c = '='
  | [], c, hc => by simp [encodeToString] at hc
  | [b0], c, hc => by
    simp [encodeToString] at hc
    rcases hc with h | h | h <;> subst h <;>
      first
      | exact Or.inl (b64Char_mem _).1
      | exact Or.inr rfl
  | [b0, b1], c, hc => by
    simp [encodeToString] at hc
    rcases hc with h | h | h | h <;> subst h <;>
      first
      | exact Or.inl (b64Char_mem _).1
      | exact Or.inr rfl
  | b0 :: b1 :: b2 :: rest, c, hc => by
    simp [encodeToString] at hc
    rcases hc with h | h | h | h | h
    · exact Or.inl (h ▸ (b64Char_mem _).1)
    · exact Or.inl (h ▸ (b64Char_mem _).1)
    · exact Or.inl (h ▸ (b64Char_mem _).1)
    · exact Or.inl (h ▸ (b64Char_mem _).1)
    · exact encodeToString_chars rest c h

theorem encodeToString_padCount : ∀ bs : List Nat,
    (encodeToString bs).count '=' =
      (if bs.length % 3 = 0 then 0 else 3 - bs.length % 3)
  | [] => by simp [encodeToString]
  | [b0] => by
    simp [encodeToString, List.count_cons, (b64Char_mem (b0 * 65536 / 262144)).2,
      (b64Char_mem (b0 * 65536 / 4096)).2]
  | [b0, b1] => by
    simp [encodeToString, List.count_cons,
      (b64Char_mem ((b0 * 65536 + b1 * 256) / 262144)).2,
      (b64Char_mem ((b0 * 65536 + b1 * 256) / 4096)).2,
      (b64Char_mem ((b0 * 65536 + b1 * 256) / 64)).2]
  | b0 :: b1 :: b2 :: rest => by
    have ih := encodeToString_padCount rest
    have h3 : (rest.length + 3) % 3 = rest.length % 3 := by omega
    simp [encodeToString, List.count_cons, ih, h3,
      (b64Char_mem ((b0 * 65536 + b1 * 256 + b2) / 262144)).2,
      (b64Char_mem ((b0 * 65536 + b1 * 256 + b2) / 4096)).2,
      (b64Char_mem ((b0 * 65536 + b1 * 256 + b2) / 64)).2,
      (b64Char_mem ((b0 * 65536 + b1 * 256 + b2) % 64)).2]

/-- C1: a store constructed with a non-empty payload gives the payload to
exactly one of any n >= 2 serialized `get` calls (the mutex serializes all
concurrent callers); every other result is absent, and from the released
state every call returns absent. -/
theorem noteStore_take_exactly_one_winner (p : List Nat) (hp : p ≠ []) (n : Nat)
    (hn : 2 ≤ n) (m : Nat) (s : noteStore) (hs : s.onceDone = true) :
    ((takeAll n ⟨some p, false⟩).1.countP (fun r => r.isSome)) = 1
    ∧ (∀ r ∈ (takeAll n ⟨some p, false⟩).1, r = some p ∨ r = none)
    ∧ ((takeAll n ⟨some p, false⟩).2 = ⟨none, true⟩)
    ∧ (∀ r ∈ (takeAll m s).1, r = none) := by
  obtain ⟨k, rfl⟩ : ∃ k, n = k + 1 := ⟨n - 1, by omega⟩
  rw [takeAll_fresh]
  refine ⟨?_, ?_, rfl, ?_⟩
  · have hz := countP_replicate_zero (fun r : Option (List Nat) => r.isSome) none k rfl
    simp [List.countP_cons, hz]
  · intro r hr
    rcases List.mem_cons.mp hr with h | h
    · exact Or.inl h
    · exact Or.inr (List.eq_of_mem_replicate h)
  · rw [takeAll_released m s hs]
    intro r hr
    exact List.eq_of_mem_replicate hr

theorem noteStore_take_exactly_one_winner_witness :
    ((takeAll 3 ⟨some [7], false⟩).1.countP (fun r => r.isSome)) = 1 :=
  (noteStore_take_exactly_one_winner [7] (by decide) 3 (by decide)
    2 ⟨none, true⟩ rfl).1

/-- C3: constructing a store with any non-empty payload and calling `get`
once, before any other call, returns exactly that payload and moves the store
to the released state. -/
theorem first_take_returns_payload (p : List Nat) (hp : p ≠ []) :
    noteStore.get ⟨some p, false⟩ = (some p, ⟨none, true⟩) := by
  simp [noteStore.get]

theorem first_take_returns_payload_witness :
    noteStore.get ⟨some [104, 105], false⟩ = (some [104, 105], ⟨none, true⟩) :=
  first_take_returns_payload [104, 105] (by decide)

/-- C9: when `get` returns the payload, the post-state of that single atomic
step has `content = nil` (and the once-guard set, the step that decided the
winner); a call that finds the store already released changes nothing. -/
theorem take_clears_content (s s1 : noteStore) (b : List Nat)
    (h : noteStore.get s = (some b, s1)) (t t1 : noteStore)
    (ht : noteStore.get t = (none, t1)) (htd : t.onceDone = true) :
    s1.content = none ∧ s1 = ⟨none, true⟩ ∧ t1 = t := by
  have h1 : t1 = t := by
    simp [noteStore.get, htd] at ht
    exact ht.symm
  cases hd : s.onceDone with
  | true => simp [noteStore.get, hd] at h
  | false =>
    simp [noteStore.get, hd] at h
    exact ⟨by rw [← h.2], h.2.symm, h1⟩

theorem take_clears_content_witness :
    (⟨none, true⟩ : noteStore).content = none :=
  (take_clears_content ⟨some [1], false⟩ ⟨none, true⟩ [1] (by simp [noteStore.get])
    ⟨none, true⟩ ⟨none, true⟩ (by simp [noteStore.get]) rfl).1

/-- C2: the route handler maps a present note to an HTTP 200 with Content-Type
text/plain; charset=utf-8 and the payload as body, then closes the done
channel; an absent note maps to 404 with the done channel untouched; across
any n >= 1 requests from a freshly constructed store, exactly one response is
a 200 and the done channel is closed exactly once, by that winner. -/
theorem handler_response_and_completion (s s1 : noteStore) (d : Bool) (c : Nat)
    (note p : List Nat) (n : Nat) (hn : 1 ≤ n) :
    (noteStore.get s = (some note, s1) →
       handleRequest (s, d, c) =
         (⟨200, some "text/plain; charset=utf-8", note⟩, s1, true, c + 1))
    ∧ (noteStore.get s = (none, s1) →
       handleRequest (s, d, c) = (notFoundResponse, s1, d, c))
    ∧ ((serveRequests n (⟨some p, false⟩, false, 0)).1.countP
         (fun r => r.status == 200) = 1)
    ∧ ((serveRequests n (⟨some p, false⟩, false, 0)).2.2.1 = true)
    ∧ ((serveRequests n (⟨some p, false⟩, false, 0)).2.2.2 = 1) := by
  obtain ⟨k, rfl⟩ : ∃ k, n = k + 1 := ⟨n - 1, by omega⟩
  rw [serveRequests_fresh]
  refine ⟨?_, ?_, ?_, rfl, rfl⟩
  · intro h
    simp [handleRequest, h, okResponse]
  · intro h
    simp [handleRequest, h]
  · simp [List.countP_cons, okResponse,
      countP_replicate_zero (fun r => r.status == 200) notFoundResponse k
        (by simp [notFoundResponse])]

theorem handler_response_and_completion_witness :
    ((serveRequests 2 (⟨some [5], false⟩, false, 0)).1.countP
       (fun r => r.status == 200) = 1) :=
  (handler_response_and_completion ⟨some [5], false⟩ ⟨none, true⟩ false 0
    [5] [5] 2 (by decide)).2.2.1

/-- C7: the completion close is executed at most once over any run (and never
again once the store is released), and delivering an interrupt to the
already-signalled buffered channel is a no-op. -/
theorem signals_one_shot (n : Nat) (s : noteStore) (d : Bool) (m ct : Nat)
    (t : noteStore) (dt : Bool) (ht : t.onceDone = true) (b : Bool) :
    ((serveRequests n (s, d, 0)).2.2.2 ≤ 1)
    ∧ ((serveRequests m (t, dt, ct)).2.2.2 = ct)
    ∧ (raiseInterrupt (raiseInterrupt b) = raiseInterrupt b) := by
  refine ⟨?_, ?_, rfl⟩
  · cases s with
    | mk content once =>
      cases once with
      | true => simp [serveRequests_released n ⟨content, true⟩ d 0 rfl]
      | false =>
        cases n with
        | zero => simp [serveRequests]
        | succ k =>
          cases content with
          | none =>
            simp [serveRequests, handleRequest, noteStore.get,
              serveRequests_released k ⟨none, true⟩ d 0 rfl]
          | some p => simp [serveRequests_fresh]
  · simp [serveRequests_released m t dt ct ht]

theorem signals_one_shot_witness :
    ((serveRequests 5 (⟨some [9], false⟩, false, 0)).2.2.2 ≤ 1) :=
  (signals_one_shot 5 ⟨some [9], false⟩ false 4 0 ⟨none, true⟩ false rfl true).1

/-- C5: the coordinator performs one blocking wait that resolves with
whichever of the two events fires first, then calls `server.Shutdown` with the
5-second timeout exactly once; a shutdown error is logged, and in both the
error and the success case the run ends on the normal return path of `main`
(exit status 0), never waiting again. -/
theorem coordinator_single_shutdown (e : Event) (err : Option String) :
    ((coordinatorTrace e err).countP isShutdownStep = 1)
    ∧ ((coordinatorTrace e err).countP isWaitStep = 1)
    ∧ ((coordinatorTrace e err).take 3 =
        [MainStep.registerSignals, MainStep.waitSelect e, MainStep.shutdownCall 5])
    ∧ (∀ t, MainStep.shutdownCall t ∈ coordinatorTrace e err → t = 5)
    ∧ (traceExitCode (coordinatorTrace e err) = some 0)
    ∧ (err ≠ none → MainStep.logShutdownErr ∈ coordinatorTrace e err) := by
  rcases err with _ | msg <;>
    refine ⟨?_, ?_, ?_, ?_, ?_, ?_⟩ <;>
      simp [coordinatorTrace, isShutdownStep, isWaitStep, traceExitCode,
        stepExitCode, List.countP_cons]

theorem coordinator_single_shutdown_witness :
    (coordinatorTrace Event.completion (some "context deadline exceeded")).countP
      isShutdownStep = 1 :=
  (coordinator_single_shutdown Event.completion (some "context deadline exceeded")).1

/-- C6: the generator asks the cryptographic source for exactly 32 bytes
(hence at least 32); if the source fails, `main` aborts with exit status 1;
every 32-byte input encodes to a token of the fixed length 44 whose characters
all come from the URL-safe alphabet (with the single deterministic `=` pad as
the only non-alphabet character). -/
theorem secret_path_generator_spec (env : Env) (content : List Nat) (e : String)
    (bs : List Nat) (h1 : env.statErr = none) (h2 : env.stdinIsCharDevice = false)
    (h3 : env.stdinRead = Except.ok content) (h4 : content ≠ [])
    (h5 : env.randErr = some e) (h6 : bs.length = randomByteCount) :
    randomByteCount = 32
    ∧ 32 ≤ randomByteCount
    ∧ (MainStep.fatalExit ("failed to generate random bytes: " ++ e) ∈ mainTrace env)
    ∧ (traceExitCode (mainTrace env) = some 1)
    ∧ ((encodeToString bs).length = 44)
    ∧ (∀ c ∈ encodeToString bs, c ∈ base64URLChars.toList ∨ c = '=')
    ∧ ((encodeToString bs).count '=' = 1) := by
  have hz : ¬ content.length = 0 := by
    simpa [List.length_eq_zero] using h4
  refine ⟨rfl, by decide, ?_, ?_, ?_, ?_, ?_⟩
  · simp [mainTrace, h1, h2, h3, contentCheck, hz, serveTrace, h5]
  · simp [mainTrace, h1, h2, h3, contentCheck, hz, serveTrace, h5,
      traceExitCode, stepExitCode]
  · rw [encodeToString_length, h6]
    decide
  · exact encodeToString_chars bs
  · rw [encodeToString_padCount, h6]
    decide

theorem secret_path_generator_spec_witness :
    traceExitCode (mainTrace ⟨none, false, Except.ok [104], ["qreph"],
      some "entropy unavailable", [], none, 0,
      Except.ok (LocalAddr.udpAddr "192.168.0.2"), Event.interrupt, none⟩) = some 1 :=
  (secret_path_generator_spec ⟨none, false, Except.ok [104], ["qreph"],
      some "entropy unavailable", [], none, 0,
      Except.ok (LocalAddr.udpAddr "192.168.0.2"), Event.interrupt, none⟩
    [104] "entropy unavailable" (List.replicate 32 0) rfl rfl rfl (by decide)
    rfl (by decide)).2.2.2.1

theorem constructStore_not_mem_coordinatorTrace (c : List Nat) (e : Event)
    (err : Option String) : MainStep.constructStore c ∉ coordinatorTrace e err := by
  rcases err with _ | msg <;> simp [coordinatorTrace]

theorem constructStore_mem_serveTrace (env : Env) (content c : List Nat)
    (h : MainStep.constructStore c ∈ serveTrace env content) : c = content := by
  have hco := constructStore_not_mem_coordinatorTrace c env.firstEvent env.shutdownErr
  rcases hr : env.randErr with _ | e <;>
    rcases hl : env.listenErr with _ | e2 <;>
      rcases hd : getOutboundIP env.dial with e3 | ip <;>
        simp [serveTrace, hr, hl, hd, hco] at h <;>
          exact h

theorem contentCheck_no_empty_store (env : Env) (content : List Nat)
    (h : MainStep.constructStore ([] : List Nat) ∈ contentCheck env content) :
    False := by
  by_cases hz : content.length = 0
  · simp [contentCheck, hz] at h
  · simp [contentCheck, hz] at h
    have hc := constructStore_mem_serveTrace env content [] h
    subst hc
    exact hz rfl

theorem constructStore_content_nonempty (env : Env) (c : List Nat)
    (h : MainStep.constructStore c ∈ mainTrace env) : c ≠ [] := by
  intro hc
  subst hc
  rcases hs : env.statErr with _ | e
  · cases hch : env.stdinIsCharDevice
    · rcases hrd : env.stdinRead with e2 | data
      · simp [mainTrace, hs, hch, hrd] at h
      · simp [mainTrace, hs, hch, hrd] at h
        exact contentCheck_no_empty_store env data h
    · by_cases ha : env.argv.length < 2
      · simp [mainTrace, hs, hch, ha] at h
      · simp [mainTrace, hs, hch, ha] at h
        exact contentCheck_no_empty_store env _ h
  · simp [mainTrace, hs] at h

/-- C4: a piped-in payload that is empty stops the run at the `no content
provided` check with exit status 1, before the store is constructed or the
server started; more generally no run ever constructs a store holding an
empty payload. -/
theorem empty_payload_fatal_before_construction (env env2 : Env) (c2 : List Nat)
    (h1 : env.statErr = none) (h2 : env.stdinIsCharDevice = false)
    (h3 : env.stdinRead = Except.ok [])
    (hc2 : MainStep.constructStore c2 ∈ mainTrace env2) :
    (mainTrace env = [MainStep.statStdin, MainStep.readStdin,
        MainStep.fatalExit "no content provided"])
    ∧ (traceExitCode (mainTrace env) = some 1)
    ∧ (∀ c, MainStep.constructStore c ∉ mainTrace env)
    ∧ (MainStep.startServe ∉ mainTrace env)
    ∧ c2 ≠ [] := by
  have ht : mainTrace env = [MainStep.statStdin, MainStep.readStdin,
      MainStep.fatalExit "no content provided"] := by
    simp [mainTrace, h1, h2, h3, contentCheck]
  refine ⟨ht, ?_, ?_, ?_, constructStore_content_nonempty env2 c2 hc2⟩ <;>
    simp [ht, traceExitCode, stepExitCode]

theorem empty_payload_fatal_before_construction_witness :
    traceExitCode (mainTrace ⟨none, false, Except.ok [], ["qreph"], none,
      List.replicate 32 0, none, 0, Except.ok (LocalAddr.udpAddr "10.0.0.5"),
      Event.interrupt, none⟩) = some 1 :=
  (empty_payload_fatal_before_construction
    ⟨none, false, Except.ok [], ["qreph"], none, List.replicate 32 0, none, 0,
      Except.ok (LocalAddr.udpAddr "10.0.0.5"), Event.interrupt, none⟩
    ⟨none, false, Except.ok [104], ["qreph"], none, List.replicate 32 0, none, 0,
      Except.ok (LocalAddr.udpAddr "10.0.0.5"), Event.interrupt, none⟩
    [104] rfl rfl rfl (by decide)).2.1

/-- C10: on a terminal (character-device stdin) with no command-line
arguments, `main` prints the usage line and returns with exit status 0,
never constructing a store, producing a path token, or starting the server;
an empty payload piped on stdin, by contrast, exits with status 1. -/
theorem usage_exit_zero (env env2 : Env) (h1 : env.statErr = none)
    (h2 : env.stdinIsCharDevice = true) (h3 : env.argv.length < 2)
    (g1 : env2.statErr = none) (g2 : env2.stdinIsCharDevice = false)
    (g3 : env2.stdinRead = Except.ok []) :
    (mainTrace env = [MainStep.statStdin, MainStep.printUsage, MainStep.exitZero])
    ∧ (traceExitCode (mainTrace env) = some 0)
    ∧ (∀ c, MainStep.constructStore c ∉ mainTrace env)
    ∧ (∀ pth, MainStep.encodePathStep pth ∉ mainTrace env)
    ∧ (MainStep.startServe ∉ mainTrace env)
    ∧ (traceExitCode (mainTrace env2) = some 1) := by
  have ht : mainTrace env = [MainStep.statStdin, MainStep.printUsage,
      MainStep.exitZero] := by
    simp [mainTrace, h1, h2, h3]
  have ht2 : mainTrace env2 = [MainStep.statStdin, MainStep.readStdin,
      MainStep.fatalExit "no content provided"] := by
    simp [mainTrace, g1, g2, g3, contentCheck]
  refine ⟨ht, ?_, ?_, ?_, ?_, ?_⟩ <;>
    simp [ht, ht2, traceExitCode, stepExitCode]

theorem usage_exit_zero_witness :
    traceExitCode (mainTrace ⟨none, true, Except.ok [], ["qreph"], none,
      List.replicate 32 0, none, 0, Except.ok (LocalAddr.udpAddr "10.0.0.5"),
      Event.interrupt, none⟩) = some 0 :=
  (usage_exit_zero
    ⟨none, true, Except.ok [], ["qreph"], none, List.replicate 32 0, none, 0,
      Except.ok (LocalAddr.udpAddr "10.0.0.5"), Event.interrupt, none⟩
    ⟨none, false, Except.ok [], ["qreph"], none, List.replicate 32 0, none, 0,
      Except.ok (LocalAddr.udpAddr "10.0.0.5"), Event.interrupt, none⟩
    rfl rfl (by decide) rfl rfl rfl).2.1

/-- C8 as stated is refuted at a concrete run: with a non-empty payload and a
failing UDP dial, the trace both starts the server (the `go server.Serve`
step) and only afterwards attempts address discovery and hits the fatal exit,
so the nonzero-exit abort does not happen before serving. -/
theorem addr_discovery_abort_after_serving_cex :
    MainStep.startServe ∈ mainTrace ⟨none, false, Except.ok [104, 105], ["qreph"],
        none, List.replicate 32 0, none, 8080,
        Except.error "network is unreachable", Event.interrupt, none⟩
    ∧ traceExitCode (mainTrace ⟨none, false, Except.ok [104, 105], ["qreph"],
        none, List.replicate 32 0, none, 8080,
        Except.error "network is unreachable", Event.interrupt, none⟩) = some 1
    ∧ (mainTrace ⟨none, false, Except.ok [104, 105], ["qreph"],
        none, List.replicate 32 0, none, 8080,
        Except.error "network is unreachable", Event.interrupt, none⟩).indexOf
        MainStep.startServe <
      (mainTrace ⟨none, false, Except.ok [104, 105], ["qreph"],
        none, List.replicate 32 0, none, 8080,
        Except.error "network is unreachable", Event.interrupt, none⟩).indexOf
        (MainStep.fatalExit "failed to get outbound ip: network is unreachable") := by
  decide

/-- C8 amended: an address-discovery failure is fatal with exit status 1 and
no fallback address (no endpoint URL is ever composed or displayed), but it is
detected only after the listener is bound and the serve goroutine has started,
so the abort happens after serving begins rather than before it. -/
theorem addr_discovery_fatal_no_fallback (env : Env) (content : List Nat)
    (e : String) (h1 : env.statErr = none) (h2 : env.stdinIsCharDevice = false)
    (h3 : env.stdinRead = Except.ok content) (h4 : content ≠ [])
    (h5 : env.randErr = none) (h6 : env.listenErr = none)
    (h7 : getOutboundIP env.dial = Except.error e) :
    (mainTrace env = [MainStep.statStdin, MainStep.readStdin,
        MainStep.constructStore content, MainStep.randReadStep,
        MainStep.encodePathStep ("/" ++ String.mk (encodeToString env.randBytes)),
        MainStep.makeDoneChannel, MainStep.registerHandlerStep, MainStep.listenStep,
        MainStep.startServe, MainStep.discoverAddr,
        MainStep.fatalExit ("failed to get outbound ip: " ++ e)])
    ∧ (traceExitCode (mainTrace env) = some 1)
    ∧ (∀ u, MainStep.composeURL u ∉ mainTrace env)
    ∧ (MainStep.printURL ∉ mainTrace env)
    ∧ (MainStep.startServe ∈ mainTrace env) := by
  have hz : ¬ content.length = 0 := by
    simpa [List.length_eq_zero] using h4
  have ht : mainTrace env = [MainStep.statStdin, MainStep.readStdin,
      MainStep.constructStore content, MainStep.randReadStep,
      MainStep.encodePathStep ("/" ++ String.mk (encodeToString env.randBytes)),
      MainStep.makeDoneChannel, MainStep.registerHandlerStep, MainStep.listenStep,
      MainStep.startServe, MainStep.discoverAddr,
      MainStep.fatalExit ("failed to get outbound ip: " ++ e)] := by
    simp [mainTrace, h1, h2, h3, contentCheck, hz, serveTrace, h5, h6, h7]
  refine ⟨ht, ?_, ?_, ?_, ?_⟩ <;>
    simp [ht, traceExitCode, stepExitCode]

theorem addr_discovery_fatal_no_fallback_witness :
    traceExitCode (mainTrace ⟨none, false, Except.ok [104, 105], ["qreph"], none,
      List.replicate 32 0, none, 8080, Except.error "network is unreachable",
      Event.interrupt, none⟩) = some 1 :=
  (addr_discovery_fatal_no_fallback
    ⟨none, false, Except.ok [104, 105], ["qreph"], none, List.replicate 32 0,
      none, 8080, Except.error "network is unreachable", Event.interrupt, none⟩
    [104, 105] "network is unreachable" rfl rfl rfl (by decide) rfl rfl rfl).2.1
